import Mathlib

/-!
Verification of the document-terminal-viewer reducer
(src/browser/jsx/containers/document-terminal-viewer/document-terminal-viewer.reducer.js).

The reducer is a pure state machine over an immutable state value
(seamless-immutable): every handler takes the previous state and an action
and returns a new state.  We embed the state, the protocol messages and every
handler of the source file as executable Lean definitions.  JavaScript values
that may be `undefined` are modelled as `Option`; JavaScript exceptions
(calling a method on `undefined`) are modelled with `Except Unit`; a handler
that falls through without a `return` statement yields `Option.none` at the
outer level (the JavaScript `undefined` result).

Two external collaborators of the reducer are not part of the unit under
study (the text-util markup conversion service and the prompt-actions
execution-lifecycle helper); the conversion service is modelled from the
spec below, the lifecycle delegation (the `executing` command) is outside
the core and is not modelled.
-/

/-- One element of an active request's accumulated error list.  The source
appends `errors.concat([name, value, traceback])`, so elements are
heterogeneous: strings (name, value) and string lists (traceback). -/
inductive ErrVal where
  | str : Option String → ErrVal
  | strs : List String → ErrVal
deriving DecidableEq, Repr

/-- ActiveRequest: the per-requestId metadata held in `state.actives`.
A fresh entry is the empty object; `errors` is absent until set. -/
structure ActiveRequest where
  errors : Option (List ErrVal)
deriving DecidableEq, Repr

/-- A rich data payload (`content.data`): a JavaScript object keyed by mime
type, modelled as an association list; only the "text/plain" key is ever
inspected by the reducer. -/
abbrev JsData := List (String × String)

/-- The tagged union of transcript history items, per the `type` tags used by
the source (`text`, `annotation`, `pythonError`, `pageBreak`,
`autocomplete`). -/
inductive HistoryItem where
  | text (source : Option String) (html : String)
  | annotation (data : JsData)
  | pythonError (name : Option String) (value : Option String)
      (traceback : List String) (stacktrace : List String)
  | pageBreak
  | autocomplete (matchList : List String)
deriving DecidableEq, Repr

/-- The opaque command-line substate (owned by the prompt-viewer reducer);
the core's handlers thread it through untouched. -/
abbrev CommandLineState := List (String × String)

/-- The root state transformed by the reducer.  `actives` and the value of
`responses` are JavaScript objects, modelled as association lists; every
value stored in `responses` is the empty object, so only its keys are kept.
`responses` itself may be absent (`Option`). -/
structure TranscriptState where
  items : List HistoryItem
  actives : List (String × ActiveRequest)
  responses : Option (List String)
  fontSize : Option Int
  cwd : Option String
  promptLabel : Option String
  continueLabel : Option String
  commandLine : CommandLineState
deriving DecidableEq, Repr

/-- An incoming protocol message (the `result` inside a JUPYTER_RESPONSE
action): `msg_type`, `parent_header.msg_id` and the `content.*` fields the
handlers read.  Each field may be absent (`_.get` yields `undefined`). -/
structure Message where
  msg_type : Option String
  parent_msg_id : Option String
  ename : Option String
  evalue : Option String
  traceback : Option (List String)
  name : Option String
  code : Option String
  text : Option String
  execution_state : Option String
  data : Option JsData
deriving DecidableEq, Repr

deriving instance DecidableEq for Except

/-- JavaScript truthiness of a possibly-absent string: `undefined` and the
empty string are falsy. -/
def jsTruthy : Option String → Bool
  | none => false
  | some s => s ≠ ""

/-- JavaScript object-key coercion: indexing with `undefined` uses the key
"undefined". -/
def jsKey : Option String → String
  | none => "undefined"
  | some s => s

/-- `a || b` on a possibly-absent string `a` with string fallback `b`. -/
def jsOr (a : Option String) (b : String) : String :=
  match a with
  | some s => if s = "" then b else s
  | none => b

/-- Lookup in a JavaScript object modelled as an association list. -/
def assocLookup : List (String × α) → String → Option α
  | [], _ => none
  | (k, v) :: rest, key => if k = key then some v else assocLookup rest key

/-- `setIn`: replace the value at a key, or add the key at the end. -/
def assocSet : List (String × α) → String → α → List (String × α)
  | [], key, v => [(key, v)]
  | (k, w) :: rest, key, v =>
      if k = key then (k, v) :: rest else (k, w) :: assocSet rest key v

/-- `without`: drop a key from an object. -/
def assocErase (l : List (String × α)) (key : String) : List (String × α) :=
  l.filter (fun p => p.1 ≠ key)

/-- `updateIn`: rewrite the value stored at a key with a function. -/
def assocUpdate (l : List (String × α)) (key : String) (f : α → α) :
    List (String × α) :=
  l.map (fun p => if p.1 = key then (p.1, f p.2) else p)

/-- Add a key to the key set of `responses` (`setIn` with value `{}`;
re-setting an existing key stores the same empty object, so the key set is
unchanged). -/
def keyInsert (l : List String) (k : String) : List String :=
  if k ∈ l then l else l ++ [k]

/-- Modelled from the spec: the external markup conversion service
(text-util's `fromAsciiToHtml`, not under src/) is "a function text → html"
(§6); handlers forward possibly-absent text to it and the spec requires them
to degrade gracefully rather than crash (§4.1, §7), so the conversion is
modelled as a total function of a possibly-absent input. -/
def fromAsciiToHtml : Option String → String
  | none => ""
  | some t => "<html>" ++ t ++ "</html>"

/-- Modelled from the spec: the per-line ANSI-to-markup converter obtained
from text-util's `getAsciiToHtmlStream` (not under src/), "a stateful
per-call converter line → html" whose state is scoped to one handler
invocation (§6); modelled as a pure total function on lines. -/
def asciiToHtmlLine (line : String) : String :=
  "<line>" ++ line ++ "</line>"

/-- `addHistoryItem`: `items.concat([item])` appends exactly one item. -/
def addHistoryItem (state : TranscriptState) (item : HistoryItem) :
    TranscriptState :=
  { state with items := state.items ++ [item] }

/-- Helper for `splitNewlines`: walk the characters, cutting at newlines;
`acc` holds the current segment reversed. -/
def splitNewlinesAux : List Char → List Char → List String
  | [], acc => [String.mk acc.reverse]
  | c :: rest, acc =>
      if c = '\n' then
        String.mk acc.reverse :: splitNewlinesAux rest []
      else
        splitNewlinesAux rest (c :: acc)

/-- JavaScript `text.split('\n')`: the list of newline-separated segments
(the empty string yields one empty segment, a trailing newline yields a
trailing empty segment). -/
def splitNewlines (s : String) : List String :=
  splitNewlinesAux s.data []

/-- JavaScript `lines.join('\n')`. -/
def joinNewlines : List String → String
  | [] => ""
  | [s] => s
  | s :: rest => s ++ "\n" ++ joinNewlines rest

/-- The prompt prefixing of `execute_input` (source lines 47-49): the first
line gets `promptLabel`, later lines get `continueLabel || promptLabel`. -/
def prefixLines (promptLabel : String) (continueLabel : Option String)
    (code : String) : String :=
  joinNewlines ((splitNewlines code).enum.map (fun iv =>
    (if iv.1 = 0 then promptLabel else jsOr continueLabel promptLabel) ++ iv.2))

/-- The `updateIn` callback of the error handler (source lines 30-36): it
reads the existing error list (`active.errors && active.errors.asMutable()
|| []`), computes `errors.concat([name, value, traceback])` — JavaScript
`concat` flattens an array argument, appending the three values as three
elements — and passes it to `active.set('errors', …)`.  seamless-immutable's
`set` does not mutate: it returns a new object, and the source discards that
return value, so the callback hands the original `active` back. -/
def errorActiveCallback (name value : Option String)
    (traceback : List String) (active : ActiveRequest) : ActiveRequest :=
  let errors := match active.errors with
    | some es => es
    | none => []
  let newErrors : List ErrVal :=
    errors ++ [ErrVal.str name, ErrVal.str value, ErrVal.strs traceback]
  let _discarded : ActiveRequest := { active with errors := some newErrors }
  active

namespace responseTypeHandlers

/-- `display_data`: append an `annotation` item when a data payload exists. -/
def display_data (state : TranscriptState) (result : Message) :
    Except Unit TranscriptState :=
  match result.data with
  | some d => Except.ok (addHistoryItem state (HistoryItem.annotation d))
  | none => Except.ok state

/-- `error`: `traceback.map` throws when `content.traceback` is absent;
otherwise a `pythonError` item is appended and, when the requestId has an
active entry, the entry is rewritten by a callback that builds
`errors.concat([name, value, traceback])` (which flattens the three values
into the list), calls `active.set('errors', …)` — whose result the source
discards, seamless-immutable `set` being non-mutating — and returns the
original `active`. -/
def error (state : TranscriptState) (result : Message) :
    Except Unit TranscriptState :=
  match result.traceback with
  | none => Except.error ()
  | some traceback =>
    let responseMsgId := result.parent_msg_id
    let name := result.ename
    let value := result.evalue
    let stacktrace := traceback.map (fun line => asciiToHtmlLine line)
    let state1 := addHistoryItem state
      (HistoryItem.pythonError name value traceback stacktrace)
    if (assocLookup state1.actives (jsKey responseMsgId)).isSome then
      Except.ok { state1 with
        actives := assocUpdate state1.actives (jsKey responseMsgId)
          (errorActiveCallback name value traceback) }
    else
      Except.ok state1

/-- `execute_input`: when a prompt label is configured the source splits
`content.code` (throwing when it is absent) and prefixes every line before
markup conversion; the rendered text is appended tagged with
`content.name`. -/
def execute_input (state : TranscriptState) (result : Message) :
    Except Unit TranscriptState :=
  let source := result.name
  let textE : Except Unit (Option String) :=
    if jsTruthy state.promptLabel then
      match result.code with
      | none => Except.error ()
      | some code =>
          Except.ok (some (prefixLines (state.promptLabel.getD "")
            state.continueLabel code))
    else
      Except.ok result.code
  match textE with
  | Except.error e => Except.error e
  | Except.ok text =>
      Except.ok (addHistoryItem state
        (HistoryItem.text source (fromAsciiToHtml text)))

/-- `execute_result`: with a data payload, a truthy "text/plain"
representation is rendered and appended as a stdout `text` item; otherwise
the payload is appended verbatim as an `annotation` item; no payload is a
no-op. -/
def execute_result (state : TranscriptState) (result : Message) :
    Except Unit TranscriptState :=
  match result.data with
  | none => Except.ok state
  | some d =>
    match assocLookup d "text/plain" with
    | some t =>
        if t = "" then
          Except.ok (addHistoryItem state (HistoryItem.annotation d))
        else
          Except.ok (addHistoryItem state
            (HistoryItem.text (some "stdout") (fromAsciiToHtml (some t))))
    | none => Except.ok (addHistoryItem state (HistoryItem.annotation d))

/-- `execute_reply`: acknowledgement only, state unchanged. -/
def execute_reply (state : TranscriptState) (_result : Message) :
    Except Unit TranscriptState :=
  Except.ok state

/-- `status`: "busy" creates/overwrites an empty active entry, anything else
removes the key; a `pageBreak` item is appended in both cases. -/
def status (state : TranscriptState) (result : Message) :
    Except Unit TranscriptState :=
  let responseMsgId := jsKey result.parent_msg_id
  let state1 :=
    if result.execution_state = some "busy" then
      { state with actives := assocSet state.actives responseMsgId ⟨none⟩ }
    else
      { state with actives := assocErase state.actives responseMsgId }
  Except.ok (addHistoryItem state1 HistoryItem.pageBreak)

/-- `stream`: render `content.text` and append a `text` item tagged with
`content.name`. -/
def stream (state : TranscriptState) (result : Message) :
    Except Unit TranscriptState :=
  Except.ok (addHistoryItem state
    (HistoryItem.text result.name (fromAsciiToHtml result.text)))

end responseTypeHandlers

/-- The message router (`jupyterResponseDetected`): the message is applied
only when its `parent_header.msg_id` is truthy, `state.responses` exists and
holds that id as a key; it is then dispatched on `msg_type`, unknown types
passing the state through unchanged. -/
def jupyterResponseDetected (state : TranscriptState) (m : Message) :
    Except Unit TranscriptState :=
  match m.parent_msg_id with
  | none => Except.ok state
  | some rid =>
    if rid = "" then Except.ok state
    else
      match state.responses with
      | none => Except.ok state
      | some resp =>
        if rid ∈ resp then
          match m.msg_type with
          | some "display_data" => responseTypeHandlers.display_data state m
          | some "error" => responseTypeHandlers.error state m
          | some "execute_input" => responseTypeHandlers.execute_input state m
          | some "execute_result" => responseTypeHandlers.execute_result state m
          | some "execute_reply" => responseTypeHandlers.execute_reply state m
          | some "status" => responseTypeHandlers.status state m
          | some "stream" => responseTypeHandlers.stream state m
          | _ => Except.ok state
        else Except.ok state

/-- `executed`: registers the payload as a key of `responses` when
`responses` exists; otherwise the source function falls through without a
`return` statement, i.e. it returns `undefined` (`none`), not a state. -/
def executed (state : TranscriptState) (payload : String) :
    Option TranscriptState :=
  match state.responses with
  | some resp => some { state with responses := some (keyInsert resp payload) }
  | none => none

/-- `changePreference`: only the "fontSize" key is recognized. -/
def changePreference (state : TranscriptState) (key : String) (value : Int) :
    TranscriptState :=
  if key = "fontSize" then { state with fontSize := some value } else state

/-- `workingDirectoryChanged`: overwrite `cwd` only when `action.cwd` is
truthy (absent and empty strings are no-ops). -/
def workingDirectoryChanged (state : TranscriptState) (cwd : Option String) :
    TranscriptState :=
  if jsTruthy cwd then { state with cwd := cwd } else state

/-- `interrupting`: no-op placeholder. -/
def interrupting (state : TranscriptState) : TranscriptState :=
  state

/-- `interrupted`: on error, append the stderr text item (the external
console logging is a side effect outside the state). -/
def interrupted (state : TranscriptState) (error : Bool) : TranscriptState :=
  if error then
    addHistoryItem state
      (HistoryItem.text (some "stderr") "Unable to interrupt terminal")
  else state

/-- `restarting`: always append the stdout text item. -/
def restarting (state : TranscriptState) : TranscriptState :=
  addHistoryItem state
    (HistoryItem.text (some "stdout") "restarting terminal...")

/-- `restarted`: on error append the stderr item, otherwise the stdout
"done" item. -/
def restarted (state : TranscriptState) (error : Bool) : TranscriptState :=
  if error then
    addHistoryItem state
      (HistoryItem.text (some "stderr") "Unable to restart terminal")
  else
    addHistoryItem state (HistoryItem.text (some "stdout") "done")

/-- `clear`: replace `items` with the empty sequence. -/
def clear (state : TranscriptState) : TranscriptState :=
  { state with items := [] }

/-- `removeLastHistoryItem`: `asMutable` copy, `pop`, store back — i.e. drop
the final element (`pop` on an empty array leaves it empty). -/
def removeLastHistoryItem (state : TranscriptState) : TranscriptState :=
  { state with items := state.items.dropLast }

/-- Whether a history item is the autocomplete overlay. -/
def isAutocompleteItem : HistoryItem → Bool
  | HistoryItem.autocomplete _ => true
  | _ => false

/-- `autocomplete`: retract a trailing autocomplete overlay if present, then
append a fresh one with the given matchList. -/
def autocomplete (state : TranscriptState) (matchList : List String) :
    TranscriptState :=
  let state1 :=
    match state.items.getLast? with
    | some (HistoryItem.autocomplete _) => removeLastHistoryItem state
    | _ => state
  addHistoryItem state1 (HistoryItem.autocomplete matchList)

/-- `clearAutocomplete`: retract a trailing autocomplete overlay if
present. -/
def clearAutocomplete (state : TranscriptState) : TranscriptState :=
  match state.items.getLast? with
  | some (HistoryItem.autocomplete _) => removeLastHistoryItem state
  | _ => state

/-- `promptCommand`: perform the clearAutocomplete transition when the
forwarded command carries the flag. -/
def promptCommand (state : TranscriptState) (clearAC : Bool) :
    TranscriptState :=
  if clearAC then clearAutocomplete state else state

/-- The direct commands and protocol-message events handled by the reducer's
own table.  The `executing` command delegates entirely to the external
prompt-actions lifecycle helper (not under src/ and opaque per the spec) and
is therefore not part of the core's own transitions. -/
inductive Command where
  | executed (payload : String)
  | jupyterResponse (m : Message)
  | changePreference (key : String) (value : Int)
  | workingDirectoryChanged (cwd : Option String)
  | interrupting
  | interrupted (error : Bool)
  | restarting
  | restarted (error : Bool)
  | clear
  | autocomplete (matchList : List String)
  | clearAutocomplete
  | promptCommand (clearAC : Bool)
deriving DecidableEq, Repr

/-- The observable outcome of one JavaScript handler call: a new state, the
`undefined` fall-through, or a thrown exception. -/
inductive JsOutcome where
  | ok (s : TranscriptState)
  | undef
  | thrown
deriving DecidableEq, Repr

/-- One step of the reducer on a command. -/
def step (s : TranscriptState) : Command → JsOutcome
  | Command.executed p =>
      match executed s p with
      | some s1 => JsOutcome.ok s1
      | none => JsOutcome.undef
  | Command.jupyterResponse m =>
      match jupyterResponseDetected s m with
      | Except.ok s1 => JsOutcome.ok s1
      | Except.error _ => JsOutcome.thrown
  | Command.changePreference k v => JsOutcome.ok (changePreference s k v)
  | Command.workingDirectoryChanged c =>
      JsOutcome.ok (workingDirectoryChanged s c)
  | Command.interrupting => JsOutcome.ok (interrupting s)
  | Command.interrupted e => JsOutcome.ok (interrupted s e)
  | Command.restarting => JsOutcome.ok (restarting s)
  | Command.restarted e => JsOutcome.ok (restarted s e)
  | Command.clear => JsOutcome.ok (clear s)
  | Command.autocomplete ms => JsOutcome.ok (autocomplete s ms)
  | Command.clearAutocomplete => JsOutcome.ok (clearAutocomplete s)
  | Command.promptCommand b => JsOutcome.ok (promptCommand s b)

/-- One autocomplete-overlay command: `some ms` is the `autocomplete`
command carrying matches `ms`, `none` is the `clearAutocomplete` command. -/
def overlayStep (s : TranscriptState) : Option (List String) → TranscriptState
  | some ms => autocomplete s ms
  | none => clearAutocomplete s

/-- Fold a sequence of autocomplete / clearAutocomplete commands. -/
def overlayRun (s : TranscriptState) :
    List (Option (List String)) → TranscriptState
  | [] => s
  | c :: rest => overlayRun (overlayStep s c) rest

/-- The overlay invariant: every item except possibly the final one is not
an autocomplete overlay. -/
def noOverlayExceptLast (items : List HistoryItem) : Prop :=
  ∀ it ∈ items.dropLast, isAutocompleteItem it = false

/-- The message types the router's handler table knows. -/
def knownMsgType (t : String) : Bool :=
  t ∈ ["display_data", "error", "execute_input", "execute_result",
    "execute_reply", "status", "stream"]

/-- Whether the message's nested requestId is a key of `state.responses`. -/
def registeredId (s : TranscriptState) (m : Message) : Bool :=
  match m.parent_msg_id, s.responses with
  | some r, some resp => r ∈ resp
  | _, _ => false

/-- The number of autocomplete overlay items in a history log. -/
def countOverlay (items : List HistoryItem) : Nat :=
  items.countP (fun it => isAutocompleteItem it)

/-- Erasing a key that no entry carries leaves the object unchanged. -/
theorem assocErase_eq_self (l : List (String × α)) (key : String)
    (h : ∀ p ∈ l, p.1 ≠ key) : assocErase l key = l := by
  unfold assocErase
  exact List.filter_eq_self.mpr (fun p hp => by simpa using h p hp)

/-- Rewriting a key's value with a function that returns its argument leaves
the object unchanged. -/
theorem assocUpdate_congr_id (l : List (String × α)) (key : String)
    (f : α → α) (hf : ∀ a, f a = a) : assocUpdate l key f = l := by
  unfold assocUpdate
  have : ∀ p : String × α, (if p.1 = key then (p.1, f p.2) else p) = p := by
    intro p
    rw [hf]
    simp
  simp [this]

/-- Any member of a list is in its `dropLast` or is the value of
`getLast?`. -/
theorem mem_dropLast_or_getLast (l : List HistoryItem) (it : HistoryItem)
    (h : it ∈ l) : it ∈ l.dropLast ∨ l.getLast? = some it := by
  induction l with
  | nil => cases h
  | cons a rest ih =>
    cases rest with
    | nil =>
      simp at h
      simp [h]
    | cons b t =>
      rcases List.mem_cons.mp h with h1 | h2
      · left
        simp [List.dropLast, h1]
      · rcases ih h2 with h3 | h4
        · left
          simp [List.dropLast]
          right
          simpa [List.dropLast] using h3
        · right
          simpa using h4


/-- Every outcome of the router either leaves `items` unchanged or appends
exactly one item to it. -/
theorem jupyterResponseDetected_items (s : TranscriptState) (m : Message)
    (s' : TranscriptState) (h : jupyterResponseDetected s m = Except.ok s') :
    s'.items = s.items ∨ ∃ it, s'.items = s.items ++ [it] := by
  unfold jupyterResponseDetected at h
  split at h
  · cases h
    left
    rfl
  · split at h
    · cases h
      left
      rfl
    · split at h
      · cases h
        left
        rfl
      · split at h
        · split at h
          · unfold responseTypeHandlers.display_data at h
            split at h
            · cases h
              right
              exact ⟨_, rfl⟩
            · cases h
              left
              rfl
          · unfold responseTypeHandlers.error at h
            split at h
            · cases h
            · dsimp only at h
              split at h
              · cases h
                right
                exact ⟨_, rfl⟩
              · cases h
                right
                exact ⟨_, rfl⟩
          · unfold responseTypeHandlers.execute_input at h
            dsimp only at h
            split at h
            · cases h
            · cases h
              right
              exact ⟨_, rfl⟩
          · unfold responseTypeHandlers.execute_result at h
            split at h
            · cases h
              left
              rfl
            · split at h
              · split at h
                · cases h
                  right
                  exact ⟨_, rfl⟩
                · cases h
                  right
                  exact ⟨_, rfl⟩
              · cases h
                right
                exact ⟨_, rfl⟩
          · cases h
            left
            rfl
          · unfold responseTypeHandlers.status at h
            dsimp only at h
            cases h
            right
            refine ⟨HistoryItem.pageBreak, ?_⟩
            dsimp only [addHistoryItem]
            split <;> rfl
          · unfold responseTypeHandlers.stream at h
            cases h
            right
            exact ⟨_, rfl⟩
          · cases h
            left
            rfl
        · cases h
          left
          rfl

theorem noOverlayExceptLast_append (xs : List HistoryItem) (a : HistoryItem)
    (h : ∀ it ∈ xs, isAutocompleteItem it = false) :
    noOverlayExceptLast (xs ++ [a]) := by
  unfold noOverlayExceptLast
  rw [List.dropLast_concat]
  exact h

theorem overlayStep_preserves (s : TranscriptState) (c : Option (List String))
    (h : noOverlayExceptLast s.items) :
    noOverlayExceptLast (overlayStep s c).items := by
  cases c with
  | some ms =>
    show noOverlayExceptLast (autocomplete s ms).items
    unfold autocomplete
    dsimp only [addHistoryItem]
    apply noOverlayExceptLast_append
    split
    · intro it hit
      exact h it (by simpa [removeLastHistoryItem] using hit)
    · rename_i hdef
      intro it hit
      rcases mem_dropLast_or_getLast s.items it hit with h1 | h2
      · exact h it h1
      · cases it with
        | autocomplete ms2 => exact absurd h2 (by simpa using hdef ms2)
        | text a b => rfl
        | annotation d => rfl
        | pythonError a b c d => rfl
        | pageBreak => rfl
  | none =>
    show noOverlayExceptLast (clearAutocomplete s).items
    unfold clearAutocomplete
    split
    · intro it hit
      apply h
      exact (List.dropLast_sublist _).subset (by simpa [removeLastHistoryItem] using hit)
    · exact h

theorem overlayRun_preserves (cmds : List (Option (List String)))
    (s : TranscriptState) (h : noOverlayExceptLast s.items) :
    noOverlayExceptLast (overlayRun s cmds).items := by
  induction cmds generalizing s with
  | nil => exact h
  | cons c rest ih => exact ih _ (overlayStep_preserves s c h)

theorem noOverlayExceptLast_spec (items : List HistoryItem)
    (h : noOverlayExceptLast items) :
    items.countP (fun it => isAutocompleteItem it) ≤ 1
    ∧ ∀ it ∈ items, isAutocompleteItem it = true → items.getLast? = some it := by
  constructor
  · rcases eq_or_ne items [] with rfl | hne
    · simp
    · have hsplit := List.dropLast_append_getLast hne
      have h0 : items.dropLast.countP (fun it => isAutocompleteItem it) = 0 :=
        List.countP_eq_zero.mpr (fun a ha => by simp [h a ha])
      calc items.countP (fun it => isAutocompleteItem it)
          = (items.dropLast ++ [items.getLast hne]).countP
              (fun it => isAutocompleteItem it) := by rw [hsplit]
        _ = items.dropLast.countP (fun it => isAutocompleteItem it)
              + [items.getLast hne].countP (fun it => isAutocompleteItem it) :=
            List.countP_append _ _ _
        _ ≤ 1 := by
            rw [h0]
            cases hAC : isAutocompleteItem (items.getLast hne) <;>
              simp [List.countP_cons, hAC]
  · intro it hit hAC
    rcases mem_dropLast_or_getLast items it hit with h1 | h2
    · rw [h it h1] at hAC
      cases hAC
    · exact h2

/-- The display_data handler never throws. -/
theorem display_data_total (s : TranscriptState) (m : Message) :
    ∃ s', responseTypeHandlers.display_data s m = Except.ok s' := by
  unfold responseTypeHandlers.display_data
  rcases m.data with _ | d
  · exact ⟨s, rfl⟩
  · exact ⟨_, rfl⟩

/-- The error handler never throws when a traceback is present. -/
theorem error_total (s : TranscriptState) (m : Message)
    (h : m.traceback ≠ none) :
    ∃ s', responseTypeHandlers.error s m = Except.ok s' := by
  unfold responseTypeHandlers.error
  rcases htb : m.traceback with _ | tb
  · exact absurd htb h
  · dsimp only
    split
    · exact ⟨_, rfl⟩
    · exact ⟨_, rfl⟩

/-- The execute_input handler never throws when `content.code` is present
whenever a prompt label is configured. -/
theorem execute_input_total (s : TranscriptState) (m : Message)
    (h : jsTruthy s.promptLabel = true → m.code ≠ none) :
    ∃ s', responseTypeHandlers.execute_input s m = Except.ok s' := by
  unfold responseTypeHandlers.execute_input
  dsimp only
  by_cases hp : jsTruthy s.promptLabel
  · rw [if_pos hp]
    rcases hc : m.code with _ | code
    · exact absurd hc (h hp)
    · exact ⟨_, rfl⟩
  · rw [if_neg hp]
    exact ⟨_, rfl⟩

/-- The execute_result handler never throws. -/
theorem execute_result_total (s : TranscriptState) (m : Message) :
    ∃ s', responseTypeHandlers.execute_result s m = Except.ok s' := by
  unfold responseTypeHandlers.execute_result
  rcases m.data with _ | d
  · exact ⟨s, rfl⟩
  · dsimp only
    rcases assocLookup d "text/plain" with _ | tk
    · exact ⟨_, rfl⟩
    · dsimp only
      by_cases ht : tk = ""
      · rw [if_pos ht]
        exact ⟨_, rfl⟩
      · rw [if_neg ht]
        exact ⟨_, rfl⟩

/-- C1: at the spec's own test input — an active requestId "5" with an empty
error list, and an error message for "5" with ename "ValueError", evalue
"bad", traceback ["line1"] — the reducer appends one pythonError item with
that name and keeps the active entry, but the entry's error list is still
empty afterwards, not [["ValueError", "bad", ["line1"]]]: the source
discards the return value of active.set('errors', …) (seamless-immutable
set is non-mutating), so the accumulation stores nothing; even the computed
value flattens the triple into three list elements via concat. -/
theorem c1_error_accumulation_discarded :
    jupyterResponseDetected
      ⟨[], [("5", ⟨some []⟩)], some ["5"], none, none, none, none, []⟩
      ⟨some "error", some "5", some "ValueError", some "bad",
        some ["line1"], none, none, none, none, none⟩
    = Except.ok ⟨[ HistoryItem.pythonError (some "ValueError") (some "bad")
          ["line1"] [asciiToHtmlLine "line1"]],
        [("5", ⟨some []⟩)], some ["5"], none, none, none, none, []⟩
    ∧ (⟨some []⟩ : ActiveRequest)
      ≠ ⟨some [ErrVal.str (some "ValueError"), ErrVal.str (some "bad"),
          ErrVal.strs ["line1"]]⟩ := by
  decide

/-- C2: the executed command registers the payload as a fresh empty entry of
responses when responses exists, but when responses is absent the source
function falls through without returning, yielding undefined rather than the
unchanged state the claim requires. -/
theorem c2_executed_undefined_when_responses_absent :
    executed ⟨[], [], none, none, none, none, none, []⟩ "5" = none
    ∧ step ⟨[], [], none, none, none, none, none, []⟩ (Command.executed "5")
      = JsOutcome.undef
    ∧ executed ⟨[], [], some [], none, none, none, none, []⟩ "5"
      = some ⟨[], [], some ["5"], none, none, none, none, []⟩ := by
  decide

/-- C3 counterexample: with a configured promptLabel and a registered
requestId, an execute_input message whose content.code is absent makes the
handler throw (the source calls text.split on undefined), contradicting the
claim that per-type handlers only presuppose a present traceback on error
messages. -/
theorem c3_execute_input_missing_code_throws :
    jupyterResponseDetected
      ⟨[], [], some ["5"], none, none, some ">>> ", none, []⟩
      ⟨some "execute_input", some "5", none, none, none, none, none, none,
        none, none⟩
    = Except.error () := by
  decide

/-- C3 (amended): for every state and message, the router never throws
provided error messages carry a traceback and execute_input messages carry
content.code whenever a prompt label is configured; every other handler —
including stream and execute_input with missing optional fields — degrades
to a no-op or a gracefully-degraded item. -/
theorem c3_handlers_no_throw (s : TranscriptState) (m : Message)
    (htb : m.msg_type = some "error" → m.traceback ≠ none)
    (hcode : m.msg_type = some "execute_input" →
      jsTruthy s.promptLabel = true → m.code ≠ none) :
    ∃ s', jupyterResponseDetected s m = Except.ok s' := by
  unfold jupyterResponseDetected
  rcases hpm : m.parent_msg_id with _ | rid
  · exact ⟨s, rfl⟩
  · dsimp only
    by_cases hrid : rid = ""
    · rw [if_pos hrid]
      exact ⟨s, rfl⟩
    · rw [if_neg hrid]
      rcases hresp : s.responses with _ | resp
      · exact ⟨s, rfl⟩
      · dsimp only
        by_cases hmem : rid ∈ resp
        · rw [if_pos hmem]
          rcases hmt : m.msg_type with _ | t
          · exact ⟨s, rfl⟩
          · split
            · exact display_data_total s m
            · rename_i heq
              injection heq with heq2
              subst heq2
              exact error_total s m (htb hmt)
            · rename_i heq
              injection heq with heq2
              subst heq2
              exact execute_input_total s m (hcode hmt)
            · exact execute_result_total s m
            · exact ⟨s, rfl⟩
            · exact ⟨_, rfl⟩
            · exact ⟨_, rfl⟩
            · exact ⟨s, rfl⟩
        · rw [if_neg hmem]
          exact ⟨s, rfl⟩

/-- Witness for C3: a stream message with absent content.text for a
registered requestId does not throw. -/
theorem c3_handlers_no_throw_witness :
    jupyterResponseDetected
      ⟨[], [], some ["5"], none, none, none, none, []⟩
      ⟨some "stream", some "5", none, none, none, none, none, none,
        none, none⟩
    ≠ Except.error () := by
  obtain ⟨s1, h⟩ := c3_handlers_no_throw
    ⟨[], [], some ["5"], none, none, none, none, []⟩
    ⟨some "stream", some "5", none, none, none, none, none, none,
      none, none⟩
    (by decide) (by decide)
  rw [h]
  simp

/-- C4: starting from any state whose items contain no autocomplete overlay,
after any finite sequence of autocomplete and clearAutocomplete commands at
most one autocomplete item exists in items, and whenever one exists it is
the last element (every prefix of the sequence is itself such a sequence, so
this holds after each command). -/
theorem c4_autocomplete_single_overlay (s : TranscriptState)
    (cmds : List (Option (List String)))
    (h0 : ∀ it ∈ s.items, isAutocompleteItem it = false) :
    countOverlay (overlayRun s cmds).items ≤ 1
    ∧ ∀ it ∈ (overlayRun s cmds).items, isAutocompleteItem it = true →
        (overlayRun s cmds).items.getLast? = some it := by
  have h1 : noOverlayExceptLast s.items :=
    fun it hit => h0 it ((List.dropLast_sublist _).subset hit)
  exact noOverlayExceptLast_spec _ (overlayRun_preserves cmds s h1)

/-- Witness for C4: two autocomplete commands, a clearAutocomplete and a
final autocomplete, starting from an empty transcript, leave at most one
overlay. -/
theorem c4_autocomplete_single_overlay_witness :
    countOverlay (overlayRun ⟨[], [], none, none, none, none, none, []⟩
      [some ["x"], some ["y"], none, some ["z"]]).items ≤ 1 :=
  (c4_autocomplete_single_overlay ⟨[], [], none, none, none, none, none, []⟩
    [some ["x"], some ["y"], none, some ["z"]] (by simp)).1

/-- C5: a status message for a registered requestId creates/overwrites an
empty active entry when execution_state is "busy" and removes the requestId
from actives otherwise — a no-op when the key is absent — and in both cases
appends exactly one pageBreak item. -/
theorem c5_status_busy_idle_pagebreak (s : TranscriptState) (m : Message)
    (r : String) (resp : List String)
    (hmt : m.msg_type = some "status") (hid : m.parent_msg_id = some r)
    (hr : r ≠ "") (hresp : s.responses = some resp) (hmem : r ∈ resp) :
    jupyterResponseDetected s m
      = Except.ok { s with
          items := s.items ++ [HistoryItem.pageBreak],
          actives := if m.execution_state = some "busy"
            then assocSet s.actives r ⟨none⟩
            else assocErase s.actives r }
    ∧ ((∀ p ∈ s.actives, p.1 ≠ r) → assocErase s.actives r = s.actives) := by
  constructor
  · simp only [jupyterResponseDetected, hid, hresp, if_neg hr, if_pos hmem,
      hmt]
    simp only [responseTypeHandlers.status, hid, jsKey, addHistoryItem]
    split <;> simp [hresp]
  · intro hnone
    exact assocErase_eq_self s.actives r hnone

/-- Witness for C5: an idle status message for registered requestId "7" not
present in actives leaves actives unchanged and appends one pageBreak. -/
theorem c5_status_busy_idle_pagebreak_witness :
    jupyterResponseDetected
      ⟨[], [], some ["7"], none, none, none, none, []⟩
      ⟨some "status", some "7", none, none, none, none, none, none,
        some "idle", none⟩
    = Except.ok ⟨[ HistoryItem.pageBreak], [], some ["7"], none, none, none,
        none, []⟩ := by
  have h := c5_status_busy_idle_pagebreak
    ⟨[], [], some ["7"], none, none, none, none, []⟩
    ⟨some "status", some "7", none, none, none, none, none, none,
      some "idle", none⟩
    "7" ["7"] rfl rfl (by decide) rfl (by decide)
  rw [h.1]
  decide

/-- C6: a protocol message whose requestId is not a key of responses (also
when responses is absent or the id is missing), or whose msg_type matches no
known handler, passes the state through unchanged. -/
theorem c6_irrelevant_message_ignored (s : TranscriptState) (m : Message)
    (h : registeredId s m = false
      ∨ ∀ t, m.msg_type = some t → knownMsgType t = false) :
    jupyterResponseDetected s m = Except.ok s := by
  unfold jupyterResponseDetected
  rcases hpm : m.parent_msg_id with _ | rid
  · rfl
  · dsimp only
    by_cases hrid : rid = ""
    · simp [hrid]
    · rw [if_neg hrid]
      rcases hresp : s.responses with _ | resp
      · rfl
      · dsimp only
        by_cases hmem : rid ∈ resp
        · rw [if_pos hmem]
          rcases h with h1 | h2
          · exfalso
            rw [registeredId, hpm, hresp] at h1
            simp [hmem] at h1
          · rcases hmt : m.msg_type with _ | t
            · rfl
            · have hk := h2 t hmt
              simp [knownMsgType] at hk
              split <;> simp_all
        · rw [if_neg hmem]

/-- Witness for C6: a busy status message for an unregistered requestId is
silently ignored. -/
theorem c6_irrelevant_message_ignored_witness :
    jupyterResponseDetected
      ⟨[], [], some [], none, none, none, none, []⟩
      ⟨some "status", some "7", none, none, none, none, none, none,
        some "busy", none⟩
    = Except.ok ⟨[], [], some [], none, none, none, none, []⟩ :=
  c6_irrelevant_message_ignored
    ⟨[], [], some [], none, none, none, none, []⟩
    ⟨some "status", some "7", none, none, none, none, none, none,
      some "busy", none⟩
    (Or.inl (by decide))

/-- C7 counterexample: a clearAutocomplete command applied to a non-empty
items sequence consisting of one autocomplete overlay empties it, so clear
is not the only event that empties a non-empty items sequence. -/
theorem c7_clearAutocomplete_empties_items :
    (⟨[ HistoryItem.autocomplete []], [], none, none, none, none, none, []⟩
        : TranscriptState).items ≠ []
    ∧ step ⟨[ HistoryItem.autocomplete []], [], none, none, none, none,
        none, []⟩ Command.clearAutocomplete
      = JsOutcome.ok ⟨[], [], none, none, none, none, none, []⟩ := by
  decide

/-- C7 (amended): the clear command empties items and leaves every other
field — actives, responses, fontSize, cwd, promptLabel, continueLabel and
the embedded command-line substate — unchanged; and among the core's own
transitions no event other than clear, clearAutocomplete, or a promptCommand
carrying the clearAutocomplete flag ever empties a non-empty items
sequence. -/
theorem c7_clear_frame_and_emptying_events :
    (∀ s : TranscriptState, ∃ s', step s Command.clear = JsOutcome.ok s'
      ∧ s'.items = [] ∧ s'.actives = s.actives ∧ s'.responses = s.responses
      ∧ s'.fontSize = s.fontSize ∧ s'.cwd = s.cwd
      ∧ s'.promptLabel = s.promptLabel ∧ s'.continueLabel = s.continueLabel
      ∧ s'.commandLine = s.commandLine)
    ∧ (∀ (s : TranscriptState) (c : Command) (s' : TranscriptState),
        step s c = JsOutcome.ok s' → s.items ≠ [] → s'.items = [] →
        c = Command.clear ∨ c = Command.clearAutocomplete
          ∨ c = Command.promptCommand true) := by
  constructor
  · intro s
    exact ⟨clear s, rfl, rfl, rfl, rfl, rfl, rfl, rfl, rfl, rfl⟩
  · intro s c s' hstep hne hempty
    cases c with
    | executed p =>
      exfalso
      simp only [step] at hstep
      split at hstep
      · rename_i s1 heq
        cases hstep
        unfold executed at heq
        split at heq
        · cases heq
          exact hne hempty
        · cases heq
      · cases hstep
    | jupyterResponse m =>
      exfalso
      simp only [step] at hstep
      split at hstep
      · rename_i s1 heq
        cases hstep
        rcases jupyterResponseDetected_items s m s' heq with h1 | ⟨it, h2⟩
        · rw [h1] at hempty
          exact hne hempty
        · rw [h2] at hempty
          simp at hempty
      · cases hstep
    | changePreference k v =>
      exfalso
      simp only [step] at hstep
      cases hstep
      unfold changePreference at hempty
      split at hempty <;> exact hne hempty
    | workingDirectoryChanged cw =>
      exfalso
      simp only [step] at hstep
      cases hstep
      unfold workingDirectoryChanged at hempty
      split at hempty <;> exact hne hempty
    | interrupting =>
      exfalso
      simp only [step] at hstep
      cases hstep
      exact hne hempty
    | interrupted e =>
      exfalso
      simp only [step] at hstep
      cases hstep
      unfold interrupted at hempty
      split at hempty
      · simp [addHistoryItem] at hempty
      · exact hne hempty
    | restarting =>
      exfalso
      simp only [step] at hstep
      cases hstep
      unfold restarting at hempty
      simp [addHistoryItem] at hempty
    | restarted e =>
      exfalso
      simp only [step] at hstep
      cases hstep
      unfold restarted at hempty
      split at hempty <;> simp [addHistoryItem] at hempty
    | clear =>
      exact Or.inl rfl
    | autocomplete ms =>
      exfalso
      simp only [step] at hstep
      cases hstep
      unfold autocomplete at hempty
      simp [addHistoryItem] at hempty
    | clearAutocomplete =>
      exact Or.inr (Or.inl rfl)
    | promptCommand b =>
      cases b with
      | false =>
        exfalso
        simp only [step] at hstep
        cases hstep
        unfold promptCommand at hempty
        simp at hempty
        exact hne hempty
      | true =>
        exact Or.inr (Or.inr rfl)

/-- Witness for C7: the event that empties the one-overlay transcript is
indeed one of clear, clearAutocomplete, or promptCommand with the flag. -/
theorem c7_clear_frame_and_emptying_events_witness :
    Command.clearAutocomplete = Command.clear
    ∨ Command.clearAutocomplete = Command.clearAutocomplete
    ∨ Command.clearAutocomplete = Command.promptCommand true :=
  c7_clear_frame_and_emptying_events.2
    ⟨[ HistoryItem.autocomplete []], [], none, none, none, none, none, []⟩
    Command.clearAutocomplete
    ⟨[], [], none, none, none, none, none, []⟩
    (by decide) (by decide) rfl

/-- C8: with a configured promptLabel, execute_input prefixes every line of
content.code before markup rendering — the first line with promptLabel, the
later lines with continueLabel when set and promptLabel otherwise — appends
the rendered text item tagged with the message's source name, and with
promptLabel ">>> ", continueLabel "... " and code "a\nb" the pre-markup text
is ">>> a\n... b". -/
theorem c8_prompt_prefixing (s : TranscriptState) (m : Message)
    (p code r : String) (resp : List String)
    (hmt : m.msg_type = some "execute_input") (hid : m.parent_msg_id = some r)
    (hr : r ≠ "") (hresp : s.responses = some resp) (hmem : r ∈ resp)
    (hp : s.promptLabel = some p) (hpt : p ≠ "") (hcode : m.code = some code) :
    jupyterResponseDetected s m
      = Except.ok (addHistoryItem s (HistoryItem.text m.name
          (fromAsciiToHtml (some (prefixLines p s.continueLabel code)))))
    ∧ prefixLines ">>> " (some "... ") "a\nb" = ">>> a\n... b" := by
  constructor
  · simp only [jupyterResponseDetected, hid, hresp, if_neg hr, if_pos hmem,
      hmt]
    simp only [responseTypeHandlers.execute_input, hp, hcode, jsTruthy]
    simp [hpt]
  · decide

/-- Witness for C8: the spec's own example, rendered through the router. -/
theorem c8_prompt_prefixing_witness :
    jupyterResponseDetected
      ⟨[], [], some ["5"], none, none, some ">>> ", some "... ", []⟩
      ⟨some "execute_input", some "5", none, none, none, some "py",
        some "a\nb", none, none, none⟩
    = Except.ok ⟨[ HistoryItem.text (some "py")
          (fromAsciiToHtml (some ">>> a\n... b"))],
        [], some ["5"], none, none, some ">>> ", some "... ", []⟩ := by
  have h := c8_prompt_prefixing
    ⟨[], [], some ["5"], none, none, some ">>> ", some "... ", []⟩
    ⟨some "execute_input", some "5", none, none, none, some "py",
      some "a\nb", none, none, none⟩
    ">>> " "a\nb" "5" ["5"] rfl rfl (by decide) rfl (by decide) rfl
    (by decide) rfl
  rw [h.1]
  decide

/-- C9 counterexample: at a concrete registered error message whose
traceback is present but empty, the handler succeeds and appends the
pythonError item, yet the active entry's error list is still empty — the
claimed accumulation stored nothing (its computed value, which would have
been the three flattened elements, is discarded with the result of
active.set). -/
theorem c9_empty_traceback_counterexample :
    jupyterResponseDetected
      ⟨[], [("5", ⟨some []⟩)], some ["5"], none, none, none, none, []⟩
      ⟨some "error", some "5", some "IndexError", some "oops", some [],
        none, none, none, none, none⟩
      = Except.ok ⟨[ HistoryItem.pythonError (some "IndexError")
            (some "oops") [] []],
          [("5", ⟨some []⟩)], some ["5"], none, none, none, none, []⟩
    ∧ (⟨some []⟩ : ActiveRequest)
      ≠ ⟨some [ErrVal.str (some "IndexError"), ErrVal.str (some "oops"),
          ErrVal.strs []]⟩ := by
  decide

/-- C9 (amended): an error message with a present-but-empty traceback for a
registered requestId does not fail: it appends a pythonError item whose
traceback and stacktrace are both empty and leaves the state otherwise
unchanged — in particular any active entry stays in place untouched, the
accumulation having no stored effect here exactly as in the general case;
only an absent traceback violates the handler's precondition. -/
theorem c9_empty_traceback_graceful (s : TranscriptState) (m : Message)
    (r : String) (resp : List String)
    (hmt : m.msg_type = some "error") (hid : m.parent_msg_id = some r)
    (hr : r ≠ "") (hresp : s.responses = some resp) (hmem : r ∈ resp)
    (htb : m.traceback = some []) :
    jupyterResponseDetected s m
      = Except.ok { s with items := s.items ++
          [HistoryItem.pythonError m.ename m.evalue [] []] } := by
  simp only [jupyterResponseDetected, hid, hresp, if_neg hr, if_pos hmem,
    hmt]
  simp only [responseTypeHandlers.error, htb]
  rw [assocUpdate_congr_id _ _ (errorActiveCallback m.ename m.evalue [])
    (fun a => rfl)]
  split <;> simp [addHistoryItem, hresp]

/-- Witness for C9: a concrete empty-traceback error message for an active
requestId "6". -/
theorem c9_empty_traceback_graceful_witness :
    jupyterResponseDetected
      ⟨[], [("6", ⟨none⟩)], some ["6"], none, none, none, none, []⟩
      ⟨some "error", some "6", some "E", some "v", some [], none, none,
        none, none, none⟩
      = Except.ok ⟨[ HistoryItem.pythonError (some "E") (some "v") [] []],
          [("6", ⟨none⟩)], some ["6"], none, none, none, none, []⟩ := by
  have h := c9_empty_traceback_graceful
    ⟨[], [("6", ⟨none⟩)], some ["6"], none, none, none, none, []⟩
    ⟨some "error", some "6", some "E", some "v", some [], none, none,
      none, none, none⟩
    "6" ["6"] rfl rfl (by decide) rfl (by decide) rfl
  rw [h]
  decide

/-- C10: the workingDirectoryChanged command with an empty-string cwd (like
an absent one) leaves the state unchanged — the empty string is falsy, so
cwd can never be set to the empty string through this command. -/
theorem c10_empty_cwd_noop (s : TranscriptState) :
    workingDirectoryChanged s (some "") = s
    ∧ workingDirectoryChanged s none = s
    ∧ ∀ c : Option String,
        (workingDirectoryChanged s c).cwd = some "" → s.cwd = some "" := by
  refine ⟨rfl, rfl, ?_⟩
  intro c hc
  unfold workingDirectoryChanged at hc
  split at hc
  · rename_i ht
    simp at hc
    rw [hc] at ht
    simp [jsTruthy] at ht
  · exact hc

/-- Witness for C10: applying the theorem at a state whose cwd already is
the empty string. -/
theorem c10_empty_cwd_noop_witness :
    (⟨[], [], none, none, some "", none, none, []⟩
      : TranscriptState).cwd = some "" :=
  (c10_empty_cwd_noop
    ⟨[], [], none, none, some "", none, none, []⟩).2.2 (some "") (by decide)
